import Mathlib

/-
Verification development for the brlaw_mcp_server repository.

The Python sources are shallowly embedded as executable Lean definitions:
pure functions become Lean functions, browser-driven code becomes functions
over an explicit world record that fixes the outcome of every driver
operation (page reads, waits, fetches), and raising code returns Except.
Source files embedded here:
  src/brlaw_mcp_server/domain/tjes.py  (query sanitizer, TJES research)
  src/brlaw_mcp_server/domain/stj.py   (STJ research with retry)
  src/brlaw_mcp_server/cloudflare.py   (Turnstile challenge solver)
-/

/-- Modelled from the spec: `domain/base.py` is not part of the provided
sources; the spec data model (section 3) gives LegalPrecedent a single
semantic field, `summary` (text). Both court models construct it via
`cls(summary=...)`. -/
structure LegalPrecedent where
  summary : String
deriving DecidableEq, Repr

/-- Python substring membership `sub in hay` (str.__contains__). -/
def strContains (hay sub : String) : Bool :=
  (List.range (hay.data.length + 1)).any (fun i => sub.data.isPrefixOf (hay.data.drop i))

/-- Python `str.strip()`: remove leading and trailing whitespace. -/
def pyStrip (s : String) : String :=
  String.mk (((s.data.dropWhile Char.isWhitespace).reverse.dropWhile Char.isWhitespace).reverse)

/-
Query sanitizer, from tjes.py.

The regex scans of `re.findall` and `re.sub` with the pattern of a quote,
a run of non-quote characters, and a closing quote are embedded as
left-to-right scans over the character list.  `splitQuote l` returns the
characters of `l` before its first double quote together with the
characters after it, or none when `l` has no double quote.  The scanning
functions recurse on a fuel argument instantiated with the length of the
list, which bounds the number of scan steps; every recursive call is on a
strictly shorter list, so the fuel never runs out.
-/

def splitQuote : List Char → Option (List Char × List Char)
  | [] => none
  | c :: rest =>
    if c = '\"' then some ([], rest)
    else (splitQuote rest).map (fun p => (c :: p.1, p.2))

theorem splitQuote_spec : ∀ (l content rest : List Char),
    splitQuote l = some (content, rest) →
    (∀ c ∈ content, c ≠ '\"') ∧ l = content ++ '\"' :: rest := by
  intro l
  induction l with
  | nil => intro c r h; simp [splitQuote] at h
  | cons a t ih =>
    intro c r h
    rw [splitQuote] at h
    by_cases ha : a = '\"'
    · rw [if_pos ha] at h
      simp only [Option.some.injEq, Prod.mk.injEq] at h
      obtain ⟨h1, h2⟩ := h
      subst h1; subst h2
      exact ⟨by simp, by simp [ha]⟩
    · rw [if_neg ha] at h
      cases hsq : splitQuote t with
      | none => rw [hsq] at h; simp at h
      | some p =>
        rw [hsq] at h
        simp only [Option.map_some', Option.some.injEq, Prod.mk.injEq] at h
        obtain ⟨h1, h2⟩ := h
        subst h1; subst h2
        obtain ⟨hmem, heq⟩ := ih p.1 p.2 (by rw [hsq])
        constructor
        · intro x hx
          rcases List.mem_cons.mp hx with h1 | h1
          · subst h1; exact ha
          · exact hmem x h1
        · simp [heq]

theorem splitQuote_length (l content rest : List Char)
    (h : splitQuote l = some (content, rest)) : rest.length < l.length := by
  have := (splitQuote_spec l content rest h).2
  subst this
  simp
  omega

/-- Fuel-driven scan behind `findQuoted`; the fuel is always at least
the length of the list, so the zero-fuel case is never reached. -/
def findQuotedAux : Nat → List Char → List (List Char)
  | _, [] => []
  | 0, _ :: _ => []
  | Nat.succ n, c :: rest =>
    if c = '\"' then
      match splitQuote rest with
      | some (content, rest2) => content :: findQuotedAux n rest2
      | none => findQuotedAux n rest
    else findQuotedAux n rest

/-- Embedding of `re.findall(r'"[^"]*"', query)` from `_sanitize_query`:
the list of quoted-term contents found by the non-overlapping
left-to-right regex scan. -/
def findQuoted (s : List Char) : List (List Char) :=
  findQuotedAux s.length s

/-- Fuel-driven scan behind `subQuoted`. -/
def subQuotedAux : Nat → List Char → List Char
  | _, [] => []
  | 0, l => l
  | Nat.succ n, c :: rest =>
    if c = '\"' then
      match splitQuote rest with
      | some (content, rest2) => content ++ subQuotedAux n rest2
      | none => c :: subQuotedAux n rest
    else c :: subQuotedAux n rest

/-- Embedding of `re.sub(r'"([^"]*)"', r'\1', query)` from `_sanitize_query`:
each matched quoted term is replaced by its content; characters outside
matches (including a quote that never closes) are copied unchanged. -/
def subQuoted (s : List Char) : List Char :=
  subQuotedAux s.length s

/-- Fuel-driven scan behind `quotesBalanced`. -/
def quotesBalancedAux : Nat → List Char → Bool
  | _, [] => true
  | 0, _ :: _ => false
  | Nat.succ n, c :: rest =>
    if c = '\"' then
      match splitQuote rest with
      | some (_, rest2) => quotesBalancedAux n rest2
      | none => false
    else quotesBalancedAux n rest

/-- True when every double quote in `s` is consumed as the delimiter of a
matched quoted term under the regex scan, i.e. no quote is left unpaired. -/
def quotesBalanced (s : List Char) : Bool :=
  quotesBalancedAux s.length s

def _MAX_QUOTED_TERMS_WITH_AND : Nat := 2

/-- Embedding of `_sanitize_query` (tjes.py): count the quoted terms; at or
below the threshold return the query with no fallback, above it return the
original query together with the quote-stripped fallback. -/
def _sanitize_query (query : String) : String × Option String :=
  if (findQuoted query.data).length ≤ _MAX_QUOTED_TERMS_WITH_AND then
    (query, none)
  else
    (query, some (String.mk (subQuoted query.data)))

theorem subQuotedAux_eq_filter_of_balanced :
    ∀ (n : Nat) (s : List Char), s.length ≤ n → quotesBalancedAux n s = true →
    subQuotedAux n s = s.filter (fun c => c != '\"') := by
  intro n
  induction n with
  | zero =>
    intro s hlen _
    have : s = [] := List.eq_nil_of_length_eq_zero (Nat.le_zero.mp hlen)
    subst this
    simp [subQuotedAux]
  | succ m ih =>
    intro s hlen hbal
    match s with
    | [] => simp [subQuotedAux]
    | c :: rest =>
      have hrest : rest.length ≤ m := by
        simp only [List.length_cons] at hlen; omega
      by_cases hc : c = '\"'
      · subst hc
        cases hsq : splitQuote rest with
        | none =>
          rw [quotesBalancedAux] at hbal
          rw [if_pos rfl, hsq] at hbal
          simp at hbal
        | some p =>
          obtain ⟨content, rest2⟩ := p
          rw [quotesBalancedAux, if_pos rfl, hsq] at hbal
          rw [subQuotedAux, if_pos rfl, hsq]
          dsimp only at hbal ⊢
          obtain ⟨hmem, heq⟩ := splitQuote_spec rest content rest2 hsq
          have hlen2 : rest2.length ≤ m := by
            have := splitQuote_length rest content rest2 hsq
            omega
          have hfilterc : content.filter (fun c => c != '\"') = content :=
            List.filter_eq_self.mpr (fun a ha => by
              simp only [bne_iff_ne, ne_eq, decide_eq_true_eq]
              exact hmem a ha)
          rw [List.filter_cons_of_neg (by simp)]
          rw [heq, List.filter_append, List.filter_cons_of_neg (by simp)]
          rw [hfilterc, ih rest2 hlen2 hbal]
      · rw [quotesBalancedAux, if_neg hc] at hbal
        rw [subQuotedAux, if_neg hc]
        rw [List.filter_cons_of_pos (by simp [hc])]
        rw [ih rest hrest hbal]

theorem subQuoted_eq_filter_of_balanced (s : List Char)
    (h : quotesBalanced s = true) :
    subQuoted s = s.filter (fun c => c != '\"') :=
  subQuotedAux_eq_filter_of_balanced s.length s (Nat.le_refl _) h

/-- C8: `_sanitize_query` is the identity on every query whose quoted-term
count is at or below the threshold of 2 (including text with no quoted
terms): it returns the input unchanged as primary with no fallback, and is
therefore idempotent on such inputs. -/
theorem sanitize_at_or_below_threshold (q : String)
    (h : (findQuoted q.data).length ≤ _MAX_QUOTED_TERMS_WITH_AND) :
    _sanitize_query q = (q, none)
    ∧ _sanitize_query (_sanitize_query q).1 = _sanitize_query q := by
  have h1 : _sanitize_query q = (q, none) := by rw [_sanitize_query, if_pos h]
  refine ⟨h1, ?_⟩
  rw [h1]
  exact h1

/-- Witness for C8 at the unquoted query "dano moral". -/
theorem sanitize_at_or_below_threshold_witness :
    (findQuoted ("dano moral" : String).data).length ≤ _MAX_QUOTED_TERMS_WITH_AND
    ∧ _sanitize_query "dano moral" = ("dano moral", none)
    ∧ _sanitize_query (_sanitize_query "dano moral").1 = _sanitize_query "dano moral" := by
  refine ⟨by decide, ?_, ?_⟩
  · exact (sanitize_at_or_below_threshold "dano moral" (by decide)).1
  · exact (sanitize_at_or_below_threshold "dano moral" (by decide)).2

/-- C5 counterexample: on a query with three quoted terms followed by one
unmatched quote, the fallback is not the query with all quote characters
removed; the unmatched quote survives `re.sub`. -/
theorem sanitize_above_threshold_counterexample :
    _MAX_QUOTED_TERMS_WITH_AND
        < (findQuoted ("\"a\" AND \"b\" AND \"c\" AND \"" : String).data).length
    ∧ (_sanitize_query "\"a\" AND \"b\" AND \"c\" AND \"").2
        ≠ some (String.mk
            ((("\"a\" AND \"b\" AND \"c\" AND \"" : String).data).filter
              (fun c => c != '\"'))) := by
  decide

/-- C5 (amended): above the threshold `_sanitize_query` returns the
original query unchanged as primary and a fallback in which the delimiting
quotes of each matched quoted term are removed with all other characters
preserved in order; when every quote in the query belongs to a matched
quoted pair the fallback is exactly the query with all quote characters
removed.  (An unmatched quote is preserved, which is what refutes the
claim as stated.) -/
theorem sanitize_above_threshold (q : String)
    (h : _MAX_QUOTED_TERMS_WITH_AND < (findQuoted q.data).length) :
    _sanitize_query q = (q, some (String.mk (subQuoted q.data)))
    ∧ (quotesBalanced q.data = true →
        subQuoted q.data = q.data.filter (fun c => c != '\"')) := by
  constructor
  · rw [_sanitize_query, if_neg (by omega)]
  · intro hb
    exact subQuoted_eq_filter_of_balanced q.data hb

/-- Witness for C5 at the end-to-end scenario query of the spec: three
quoted terms, fallback with quotes stripped and wording intact. -/
theorem sanitize_above_threshold_witness :
    _MAX_QUOTED_TERMS_WITH_AND
        < (findQuoted ("\"dano moral\" AND \"indenização\" AND \"recurso\"" : String).data).length
    ∧ _sanitize_query "\"dano moral\" AND \"indenização\" AND \"recurso\""
        = ("\"dano moral\" AND \"indenização\" AND \"recurso\"",
            some "dano moral AND indenização AND recurso") := by
  refine ⟨by decide, ?_⟩
  have h := (sanitize_above_threshold
    "\"dano moral\" AND \"indenização\" AND \"recurso\"" (by decide)).1
  rw [h]
  decide

/-
TJES research strategy, from tjes.py.

An API document is a JSON object read with `doc.get(key, "")`; a missing
or null field and an empty string behave identically everywhere in
`_build_summary` (plain truthiness tests, and `x or y or ""` for the
acordao/inteiro_teor fallback), so each field is embedded as a String with
"" standing for an absent value.
-/

structure TjesDoc where
  nr_processo : String
  classe_judicial : String
  magistrado : String
  orgao_julgador : String
  dt_juntada : String
  assunto_principal : String
  ementa : String
  acordao : String
  inteiro_teor : String
deriving DecidableEq, Repr

def _PER_PAGE : Nat := 20

def _MIN_EMENTA_LENGTH : Nat := 30

/-- Embedding of `TjesLegalPrecedent._build_summary`: header, judge, body,
truncated date and subject lines, then the case abstract when its trimmed
length exceeds the minimum, else the full-decision fallback text. -/
def _build_summary (doc : TjesDoc) : String :=
  let parts1 : List String :=
    if doc.nr_processo ≠ "" then
      [if doc.classe_judicial ≠ "" then
          "PROCESSO: " ++ doc.nr_processo ++ " — " ++ doc.classe_judicial
        else
          "PROCESSO: " ++ doc.nr_processo]
    else []
  let parts2 := parts1 ++
    (if doc.magistrado ≠ "" then ["RELATOR(A): " ++ doc.magistrado] else [])
  let parts3 := parts2 ++
    (if doc.orgao_julgador ≠ "" then ["ÓRGÃO JULGADOR: " ++ doc.orgao_julgador] else [])
  let parts4 := parts3 ++
    (if doc.dt_juntada ≠ "" then ["DATA: " ++ doc.dt_juntada.take 10] else [])
  let parts5 := parts4 ++
    (if doc.assunto_principal ≠ "" then ["ASSUNTO: " ++ doc.assunto_principal] else [])
  let ementaT := pyStrip doc.ementa
  let parts6 := parts5 ++
    (if _MIN_EMENTA_LENGTH < ementaT.length then
      ["\nEMENTA:\n" ++ ementaT]
    else
      let acordao := if doc.acordao ≠ "" then doc.acordao else doc.inteiro_teor
      if pyStrip acordao ≠ "" then ["\nINTEIRO TEOR:\n" ++ pyStrip acordao] else [])
  String.intercalate "\n" parts6

/-- The JSON object returned by the TJES search API, after the
`result.get("docs", [])` and `result.get("total", 0)` defaults. -/
structure TjesApiResult where
  docs : List TjesDoc
  total : Nat
deriving DecidableEq, Repr

/-- One HTTP response as seen by `_FETCH_JS`: a status code and the result
of `resp.json()` (none when parsing throws). -/
structure HttpResp where
  status : Nat
  jsonBody : Option TjesApiResult
deriving DecidableEq, Repr

inductive FetchFailure
  /-- `_FETCH_JS` threw `HTTP <status>` because `resp.ok` was false. -/
  | httpStatus (status : Nat)
  /-- `resp.json()` threw. -/
  | parseFailure
  /-- the `browser.evaluate` call itself failed (driver-level error). -/
  | evalFailure
deriving DecidableEq, Repr

/-- Outcomes of the driver operations one TJES research call performs.
URL assembly (`quote_plus` percent-encoding of the query into the request
URL) is not embedded: no claim depends on the URL text, only on whether a
fallback URL exists, which is determined by `_sanitize_query`. -/
structure TjesWorld where
  /-- the browser.evaluate call itself raises (page crash etc.) -/
  evalCrash : Bool
  primaryResp : HttpResp
  fallbackResp : HttpResp

/-- JavaScript `resp.ok`: status in the range 200 to 299. -/
def respOk (status : Nat) : Bool :=
  decide (200 ≤ status ∧ status < 300)

/-- Embedding of `_FETCH_JS` run through `browser.evaluate`: fetch the
primary URL; on status 403 with a fallback URL present, fetch the fallback
instead; a non-ok final status or a JSON parse failure throws. -/
def runFetchJs (w : TjesWorld) (hasFallback : Bool) : Except FetchFailure TjesApiResult :=
  if w.evalCrash then .error .evalFailure
  else
    let resp := if w.primaryResp.status = 403 && hasFallback then w.fallbackResp else w.primaryResp
    if !respOk resp.status then .error (.httpStatus resp.status)
    else
      match resp.jsonBody with
      | none => .error .parseFailure
      | some r => .ok r

/-- Embedding of `TjesLegalPrecedent.research`: navigate, sanitize the
query, run the in-browser fetch (any failure degrades to an empty list),
then build one precedent per document whose summary is non-empty after
trimming. -/
def tjes_research (w : TjesWorld) (summary_search_prompt : String)
    (desired_page : Nat) : List LegalPrecedent :=
  let sq := _sanitize_query summary_search_prompt
  match runFetchJs w sq.2.isSome with
  | .error _ => []
  | .ok result =>
    let docs := result.docs
    if docs.isEmpty then []
    else
      docs.filterMap (fun doc =>
        let summary := _build_summary doc
        if pyStrip summary ≠ "" then some (⟨summary⟩ : LegalPrecedent) else none)

theorem filterMap_summary_eq (docs : List TjesDoc) :
    docs.filterMap (fun doc =>
        let summary := _build_summary doc
        if pyStrip summary ≠ "" then some (⟨summary⟩ : LegalPrecedent) else none)
    = (docs.filter (fun d => pyStrip (_build_summary d) != "")).map
        (fun d => (⟨_build_summary d⟩ : LegalPrecedent)) := by
  induction docs with
  | nil => simp
  | cons d rest ih =>
    by_cases h : pyStrip (_build_summary d) = ""
    · rw [List.filterMap_cons, List.filter_cons_of_neg (by simp [h])]
      simp only [h]
      simpa using ih
    · rw [List.filterMap_cons, List.filter_cons_of_pos (by simp [h])]
      simp only [if_pos h, List.map_cons]
      simpa [h] using ih

/-- C6: any failure of the in-browser API fetch (driver-level evaluate
failure, non-success final HTTP status after the optional fallback, or a
JSON parse failure) makes TJES research return an empty list rather than
raising. -/
theorem tjes_fetch_failure_empty (w : TjesWorld) (prompt : String)
    (page : Nat) (e : FetchFailure)
    (h : runFetchJs w ((_sanitize_query prompt).2).isSome = .error e) :
    tjes_research w prompt page = [] := by
  rw [tjes_research, h]

/-- Witness for C6: a world whose primary response is an HTTP 500 (no
fallback URL for an unquoted query) yields the empty list. -/
theorem tjes_fetch_failure_empty_witness :
    runFetchJs (⟨false, ⟨500, none⟩, ⟨200, none⟩⟩ : TjesWorld)
        ((_sanitize_query "dano moral").2).isSome = .error (.httpStatus 500)
    ∧ tjes_research ⟨false, ⟨500, none⟩, ⟨200, none⟩⟩ "dano moral" 1 = [] := by
  refine ⟨by rfl, ?_⟩
  exact tjes_fetch_failure_empty ⟨false, ⟨500, none⟩, ⟨200, none⟩⟩ "dano moral" 1
    (.httpStatus 500) (by rfl)

/-- C7: when the fetch succeeds, the returned list holds exactly one
precedent per input document whose synthesized summary is non-empty after
trimming, in the same relative order as the input documents. -/
theorem tjes_docs_mapping (w : TjesWorld) (prompt : String) (page : Nat)
    (res : TjesApiResult)
    (h : runFetchJs w ((_sanitize_query prompt).2).isSome = .ok res) :
    tjes_research w prompt page
      = (res.docs.filter (fun d => pyStrip (_build_summary d) != "")).map
          (fun d => (⟨_build_summary d⟩ : LegalPrecedent)) := by
  rw [tjes_research, h]
  by_cases hd : res.docs.isEmpty
  · have : res.docs = [] := List.isEmpty_iff.mp hd
    simp [hd, this]
  · simp only [hd, if_neg (by simp [hd] : ¬(res.docs.isEmpty = true))]
    exact filterMap_summary_eq res.docs

/-- A concrete document with only a process number. -/
def tjesDocA : TjesDoc := ⟨"100", "", "", "", "", "", "", "", ""⟩

/-- A concrete document all of whose fields are empty: its summary is
empty and it must be dropped. -/
def tjesDocB : TjesDoc := ⟨"", "", "", "", "", "", "", "", ""⟩

/-- A concrete world whose API call succeeds with documents A and B. -/
def tjesWorldOk : TjesWorld := ⟨false, ⟨200, some ⟨[tjesDocA, tjesDocB], 2⟩⟩, ⟨200, none⟩⟩

/-- Witness for C7: of two input documents, only the one with a non-empty
summary yields a precedent, in input order. -/
theorem tjes_docs_mapping_witness :
    runFetchJs tjesWorldOk ((_sanitize_query "dano moral").2).isSome
        = .ok ⟨[tjesDocA, tjesDocB], 2⟩
    ∧ tjes_research tjesWorldOk "dano moral" 1 = [⟨"PROCESSO: 100"⟩] := by
  refine ⟨by rfl, ?_⟩
  have h := tjes_docs_mapping tjesWorldOk "dano moral" 1 ⟨[tjesDocA, tjesDocB], 2⟩ (by rfl)
  rw [h]
  rfl

/-- C2 (amended): every precedent returned by the Variant B (TJES)
research has a summary that is non-empty after trimming; the analogous
invariant fails for Variant A (STJ), which drops only fragments whose
text content is absent, not whitespace-only ones. -/
theorem tjes_summary_trim_nonempty (w : TjesWorld) (prompt : String)
    (page : Nat) (p : LegalPrecedent) (h : p ∈ tjes_research w prompt page) :
    pyStrip p.summary ≠ "" := by
  rw [tjes_research] at h
  dsimp only at h
  cases hf : runFetchJs w ((_sanitize_query prompt).2).isSome with
  | error e =>
    rw [hf] at h
    simp at h
  | ok res =>
    rw [hf] at h
    dsimp only at h
    by_cases hd : res.docs.isEmpty
    · rw [if_pos hd] at h
      simp at h
    · rw [if_neg hd] at h
      obtain ⟨d, _hd2, hsome⟩ := List.mem_filterMap.mp h
      by_cases hs : pyStrip (_build_summary d) = ""
      · rw [if_neg (fun hne => hne hs)] at hsome
        exact absurd hsome (by simp)
      · rw [if_pos hs] at hsome
        have hp : (⟨_build_summary d⟩ : LegalPrecedent) = p := by
          exact Option.some.inj hsome
        rw [← hp]
        exact hs

/-- Witness for C2 at a concrete TJES run: the returned precedent has a
summary that is non-empty after trimming. -/
theorem tjes_summary_trim_nonempty_witness :
    (⟨"PROCESSO: 100"⟩ : LegalPrecedent) ∈ tjes_research tjesWorldOk "dano moral" 1
    ∧ pyStrip ("PROCESSO: 100" : String) ≠ "" := by
  have hmem : (⟨"PROCESSO: 100"⟩ : LegalPrecedent) ∈ tjes_research tjesWorldOk "dano moral" 1 := by
    rw [show tjes_research tjesWorldOk "dano moral" 1 = [⟨"PROCESSO: 100"⟩] from rfl]
    exact List.mem_singleton.mpr rfl
  exact ⟨hmem, tjes_summary_trim_nonempty tjesWorldOk "dano moral" 1 _ hmem⟩

/-
STJ research strategy, from stj.py.

Each driver operation that one research attempt performs is given its
outcome by an explicit world record.  Every bounded wait is a Bool (false
means the wait raised patchright TimeoutError); the per-results-page
observations live in StjPageView, indexed by page number.  Raised Python
exceptions are embedded as Except with the error taxonomy the retry loop
distinguishes: patchright TimeoutError, RuntimeError, and the builtin
IndexError from indexing an empty locator list (which the loop does not
catch).
-/

/-- The exceptions a single STJ research attempt can raise. -/
inductive PwError
  | timeout
  | runtimeError (msg : String)
  | indexError
deriving DecidableEq, Repr

/-- Observations of one STJ results page. -/
structure StjPageView where
  /-- the text_content of each `textarea[id^=textSemformatacao]` locator
  on the page; none embeds a null text_content -/
  fragments : List (Option String)
  /-- the text_content read of `div.erroMensagem`; outer none embeds the
  read raising TimeoutError, inner none a null text_content -/
  errorDiv : Option (Option String)
  /-- whether `a.iconeProximaPagina` matches at least one element -/
  hasNextAnchor : Bool
  /-- whether the wait for the load event after clicking next succeeds -/
  loadOk : Bool

/-- Embedding of `StjLegalPrecedent._get_raw_summary_locators`: with zero
fragments, read the error element (a timeout there becomes RuntimeError);
a text containing the no-document message yields the empty list; any other
outcome falls through to returning the (empty) locator list. -/
def _get_raw_summary_locators (pg : StjPageView) :
    Except PwError (List (Option String)) :=
  if pg.fragments.length = 0 then
    match pg.errorDiv with
    | none => .error (.runtimeError "Unexpected behavior from the requested service")
    | some msg =>
      if (match msg with
          | some m => strContains m "Nenhum documento encontrado!"
          | none => false) then
        .ok []
      else
        .ok pg.fragments
  else
    .ok pg.fragments

/-- Outcomes of the driver operations one STJ research attempt performs,
in program order. -/
structure StjAttemptWorld where
  /-- goto of the search entry point succeeds -/
  gotoOk : Bool
  /-- is_cloudflare_challenge result after navigation -/
  challengeDetected : Bool
  /-- solve_cloudflare_challenge result when invoked -/
  challengeSolved : Bool
  /-- wait_for_load_state("networkidle") succeeds -/
  networkIdleOk : Bool
  /-- wait_for_function readyState check succeeds within its timeout -/
  readyStateOk : Bool
  /-- the advanced-search button becomes visible within its timeout -/
  advSearchVisible : Bool
  /-- the summary input becomes visible within its timeout -/
  summaryInputVisible : Bool
  /-- the results container becomes visible within its timeout -/
  resultsContainerVisible : Bool
  /-- the results page shown after the page-number-th navigation -/
  pages : Nat → StjPageView
  /-- whether the best-effort reset goto of about:blank after this
  attempt raises; the orchestrator suppresses it either way -/
  resetRaises : Bool

/-- All preliminary steps of one attempt (navigation, challenge,
readiness and visibility waits) succeed. -/
def stjPreambleOk (w : StjAttemptWorld) : Bool :=
  w.gotoOk && (!w.challengeDetected || w.challengeSolved) && w.networkIdleOk
    && w.readyStateOk && w.advSearchVisible && w.summaryInputVisible
    && w.resultsContainerVisible

/-- Embedding of the `while current_page != desired_page` pagination loop:
the fuel is `desired_page - 1`, the number of iterations the loop performs
for a desired page of at least 1 (the domain the spec fixes for
SearchRequest).  Each iteration reads the next-page anchors on the current
page (an empty list makes `[0]` raise IndexError), clicks, waits for the
load event, and re-extracts the fragments of the following page. -/
def stjPaginate (w : StjAttemptWorld) :
    Nat → Nat → List (Option String) → Except PwError (List (Option String))
  | 0, _, frags => .ok frags
  | Nat.succ n, current, _ =>
    if !(w.pages current).hasNextAnchor then .error .indexError
    else if !(w.pages current).loadOk then .error .timeout
    else
      match _get_raw_summary_locators (w.pages (current + 1)) with
      | .error e => .error e
      | .ok frags2 => stjPaginate w n (current + 1) frags2

/-- Embedding of `StjLegalPrecedent._attempt_research`: navigate, solve a
detected challenge (an unsolved one raises RuntimeError), run the bounded
waits (each raising TimeoutError on failure), extract the fragments of
page 1, paginate to the desired page, and keep one precedent per fragment
whose text content is not null. -/
def _attempt_research (w : StjAttemptWorld) (desired_page : Nat) :
    Except PwError (List LegalPrecedent) :=
  if !w.gotoOk then .error .timeout
  else if w.challengeDetected && !w.challengeSolved then
    .error (.runtimeError "Could not bypass Cloudflare challenge on STJ website")
  else if !w.networkIdleOk then .error .timeout
  else if !w.readyStateOk then .error .timeout
  else if !w.advSearchVisible then .error .timeout
  else if !w.summaryInputVisible then .error .timeout
  else if !w.resultsContainerVisible then .error .timeout
  else
    match _get_raw_summary_locators (w.pages 1) with
    | .error e => .error e
    | .ok frags1 =>
      match stjPaginate w (desired_page - 1) 1 frags1 with
      | .error e => .error e
      | .ok frags =>
        .ok (frags.filterMap (fun t => t.map (fun text => (⟨text⟩ : LegalPrecedent))))

def _MAX_RETRIES : Nat := 2

/-- How `StjLegalPrecedent.research` terminates: `aggregated` embeds the
final `RuntimeError("STJ research failed after 2 attempts") from
last_error`, `uncaught` an exception outside the caught
`(TimeoutError, RuntimeError)` pair that propagates directly. -/
inductive ResearchError
  | aggregated (last : Option PwError)
  | uncaught (e : PwError)
deriving DecidableEq, Repr

/-- The exception classes the STJ retry loop catches:
`except (TimeoutError, RuntimeError)`. -/
def stjCatchable : PwError → Bool
  | .timeout => true
  | .runtimeError _ => true
  | .indexError => false

/-- The attempt loop of `StjLegalPrecedent.research`.  Arguments: the
per-attempt worlds, the desired page, the 1-based attempt number, the
remaining attempts (starting at `_MAX_RETRIES`), the resets performed so
far, and the recorded last error.  A catchable failure on a non-final
attempt performs one best-effort reset (counted; its own outcome
`resetRaises` is suppressed), the final attempt feeds the aggregated
error, and an uncatchable failure propagates at once. -/
def researchGo (aw : Nat → StjAttemptWorld) (desired_page : Nat) :
    Nat → Nat → Nat → Option PwError →
    Except ResearchError (List LegalPrecedent) × Nat
  | _, 0, resets, last => (.error (.aggregated last), resets)
  | attempt, Nat.succ rem, resets, _ =>
    match _attempt_research (aw attempt) desired_page with
    | .ok r => (.ok r, resets)
    | .error e =>
      if stjCatchable e then
        researchGo aw desired_page (attempt + 1) rem
          (if rem = 0 then resets else resets + 1) (some e)
      else
        (.error (.uncaught e), resets)

/-- Embedding of `StjLegalPrecedent.research`: up to `_MAX_RETRIES`
attempts; the second component counts the state resets performed. -/
def research (aw : Nat → StjAttemptWorld) (desired_page : Nat) :
    Except ResearchError (List LegalPrecedent) × Nat :=
  researchGo aw desired_page 1 _MAX_RETRIES 0 none

theorem stjPaginate_succ (w : StjAttemptWorld) (n current : Nat)
    (frags : List (Option String)) :
    stjPaginate w (Nat.succ n) current frags =
      if !(w.pages current).hasNextAnchor then .error .indexError
      else if !(w.pages current).loadOk then .error .timeout
      else
        match _get_raw_summary_locators (w.pages (current + 1)) with
        | .error e => .error e
        | .ok frags2 => stjPaginate w n (current + 1) frags2 := rfl

theorem researchGo_succ (aw : Nat → StjAttemptWorld) (d attempt rem resets : Nat)
    (last : Option PwError) :
    researchGo aw d attempt (Nat.succ rem) resets last =
      match _attempt_research (aw attempt) d with
      | .ok r => (.ok r, resets)
      | .error e =>
        if stjCatchable e then
          researchGo aw d (attempt + 1) rem
            (if rem = 0 then resets else resets + 1) (some e)
        else
          (.error (.uncaught e), resets) := rfl

theorem researchGo_zero (aw : Nat → StjAttemptWorld) (d attempt resets : Nat)
    (last : Option PwError) :
    researchGo aw d attempt 0 resets last = (.error (.aggregated last), resets) := rfl

theorem research_eq_go (aw : Nat → StjAttemptWorld) (d : Nat) :
    research aw d = researchGo aw d 1 (Nat.succ (Nat.succ 0)) 0 none := rfl

/-- C1 counterexample: with zero fragments and an error element whose text
does not contain the no-document message, the attempt returns an empty
list instead of raising. -/
theorem stj_zero_fragments_counterexample :
    strContains "Erro interno" "Nenhum documento encontrado!" = false
    ∧ _get_raw_summary_locators ⟨[], some (some "Erro interno"), false, false⟩
        = .ok [] := by
  exact ⟨by decide, by rfl⟩

/-- C1 (amended): with zero raw fragments, the attempt raises the fatal
RuntimeError exactly when reading the error-message element times out;
when the element is readable, a text containing "Nenhum documento
encontrado!" yields the empty list, and any other readable outcome (a
different text, or a null text) also returns the empty fragment list
rather than raising. -/
theorem stj_zero_fragments_cases (pg : StjPageView) (h : pg.fragments = []) :
    (pg.errorDiv = none →
      _get_raw_summary_locators pg
        = .error (.runtimeError "Unexpected behavior from the requested service"))
    ∧ (∀ m, pg.errorDiv = some (some m) →
      strContains m "Nenhum documento encontrado!" = true →
      _get_raw_summary_locators pg = .ok [])
    ∧ (∀ msg, pg.errorDiv = some msg →
      (match msg with
        | some m => strContains m "Nenhum documento encontrado!"
        | none => false) = false →
      _get_raw_summary_locators pg = .ok []) := by
  have hlen : pg.fragments.length = 0 := by rw [h]; rfl
  refine ⟨?_, ?_, ?_⟩
  · intro hdiv
    rw [_get_raw_summary_locators, if_pos hlen, hdiv]
  · intro m hdiv hc
    rw [_get_raw_summary_locators, if_pos hlen, hdiv]
    simp [hc]
  · intro msg hdiv hc
    rw [_get_raw_summary_locators, if_pos hlen, hdiv]
    simp [hc, h]

/-- Witness for C1: a page with zero fragments whose error-element read
times out makes the attempt raise the fatal RuntimeError. -/
theorem stj_zero_fragments_cases_witness :
    (⟨[], none, false, false⟩ : StjPageView).fragments = []
    ∧ _get_raw_summary_locators ⟨[], none, false, false⟩
        = .error (.runtimeError "Unexpected behavior from the requested service") :=
  ⟨rfl, (stj_zero_fragments_cases ⟨[], none, false, false⟩ rfl).1 rfl⟩

/-- A successful STJ attempt whose single fragment has whitespace-only
text content. -/
def stjWorldWs : StjAttemptWorld :=
  ⟨true, false, false, true, true, true, true, true,
    fun _ => ⟨[some "  "], none, false, false⟩, false⟩

/-- C2 counterexample: an STJ research call returns a precedent whose
summary is whitespace only, hence empty after trimming; the STJ mapping
drops only null text contents. -/
theorem summary_trim_invariant_counterexample :
    research (fun _ => stjWorldWs) 1 = (.ok [⟨"  "⟩], 0)
    ∧ pyStrip ("  " : String) = "" :=
  ⟨rfl, rfl⟩

/-- C3: with the budget of 2 attempts, a retry-eligible failure on
attempt 1 followed by a success on attempt 2 returns the attempt-2 result
having performed exactly one state reset; two retry-eligible failures
raise the single aggregated error carrying the last underlying error,
still with exactly one reset. -/
theorem stj_retry_behavior (aw : Nat → StjAttemptWorld) (d : Nat) :
    (∀ e r, stjCatchable e = true →
      _attempt_research (aw 1) d = .error e →
      _attempt_research (aw 2) d = .ok r →
      research aw d = (.ok r, 1))
    ∧ (∀ e₁ e₂, stjCatchable e₁ = true → stjCatchable e₂ = true →
      _attempt_research (aw 1) d = .error e₁ →
      _attempt_research (aw 2) d = .error e₂ →
      research aw d = (.error (.aggregated (some e₂)), 1)) := by
  constructor
  · intro e r hc h1 h2
    rw [research_eq_go, researchGo_succ, h1]
    dsimp only
    rw [hc]
    simp only [if_true]
    rw [researchGo_succ, h2]
    simp
  · intro e₁ e₂ hc1 hc2 h1 h2
    rw [research_eq_go, researchGo_succ, h1]
    dsimp only
    rw [hc1]
    simp only [if_true]
    rw [researchGo_succ, h2]
    dsimp only
    rw [hc2]
    simp only [if_true]
    rw [researchGo_zero]
    simp

/-- An attempt whose initial navigation times out. -/
def stjWorldGotoFail : StjAttemptWorld :=
  ⟨false, false, false, true, true, true, true, true,
    fun _ => ⟨[], none, false, false⟩, false⟩

/-- An attempt that succeeds with one fragment of text "A". -/
def stjWorldAttemptOk : StjAttemptWorld :=
  ⟨true, false, false, true, true, true, true, true,
    fun _ => ⟨[some "A"], none, true, true⟩, false⟩

/-- Per-attempt worlds: attempt 1 times out, attempt 2 succeeds. -/
def stjRetryAw : Nat → StjAttemptWorld :=
  fun attempt => if attempt = 1 then stjWorldGotoFail else stjWorldAttemptOk

/-- Witness for C3: a navigation timeout on attempt 1 and a success on
attempt 2 yield the attempt-2 result with exactly one reset. -/
theorem stj_retry_behavior_witness :
    stjCatchable .timeout = true
    ∧ _attempt_research (stjRetryAw 1) 1 = .error .timeout
    ∧ _attempt_research (stjRetryAw 2) 1 = .ok [⟨"A"⟩]
    ∧ research stjRetryAw 1 = (.ok [⟨"A"⟩], 1) :=
  ⟨rfl, rfl, rfl,
    (stj_retry_behavior stjRetryAw 1).1 .timeout [⟨"A"⟩] rfl rfl rfl⟩

/-- C9: a pagination step on a page with no next-page anchor indexes an
empty locator list and raises IndexError; an attempt whose preamble and
first extraction succeed raises it whenever the desired page is beyond 1
and page 1 has no next anchor; and because the retry loop catches only
TimeoutError and RuntimeError, the IndexError of attempt 1 propagates at
once: no retry, no reset, and not the final aggregated error. -/
theorem stj_index_error_propagation :
    (∀ (w : StjAttemptWorld) (n current : Nat) (frags : List (Option String)),
      (w.pages current).hasNextAnchor = false →
      stjPaginate w (Nat.succ n) current frags = .error .indexError)
    ∧ (∀ (w : StjAttemptWorld) (d : Nat) (frags : List (Option String)),
      2 ≤ d →
      stjPreambleOk w = true →
      _get_raw_summary_locators (w.pages 1) = .ok frags →
      (w.pages 1).hasNextAnchor = false →
      _attempt_research w d = .error .indexError)
    ∧ (∀ (aw : Nat → StjAttemptWorld) (d : Nat),
      _attempt_research (aw 1) d = .error .indexError →
      research aw d = (.error (.uncaught .indexError), 0)) := by
  have hstep : ∀ (w : StjAttemptWorld) (n current : Nat)
      (frags : List (Option String)),
      (w.pages current).hasNextAnchor = false →
      stjPaginate w (Nat.succ n) current frags = .error .indexError := by
    intro w n current frags hanch
    rw [stjPaginate_succ, hanch]
    rfl
  refine ⟨hstep, ?_, ?_⟩
  · intro w d frags hd hpre hfr hanch
    simp only [stjPreambleOk, Bool.and_eq_true] at hpre
    obtain ⟨⟨⟨⟨⟨⟨hgoto, hch⟩, hni⟩, hrs⟩, hadv⟩, hsi⟩, hrc⟩ := hpre
    have hchal : (w.challengeDetected && !w.challengeSolved) = false := by
      revert hch
      cases w.challengeDetected <;> cases w.challengeSolved <;> simp
    rw [_attempt_research, hgoto, hchal, hni, hrs, hadv, hsi, hrc]
    simp only [Bool.not_true, Bool.false_eq_true, if_false, if_true]
    rw [hfr]
    dsimp only
    have hd1 : d - 1 = Nat.succ (d - 2) := by omega
    rw [hd1, hstep w (d - 2) 1 frags hanch]
  · intro aw d h1
    rw [research_eq_go, researchGo_succ, h1]
    dsimp only
    rw [show stjCatchable .indexError = false from rfl]
    simp only [Bool.false_eq_true, if_false]

/-- An attempt whose preamble succeeds, whose first page shows one
fragment, and whose results page has no next-page anchor. -/
def stjWorldNoNext : StjAttemptWorld :=
  ⟨true, false, false, true, true, true, true, true,
    fun _ => ⟨[some "A"], none, false, true⟩, false⟩

/-- Witness for C9: desired page 2 with no next-page anchor makes the
call fail with the uncaught IndexError, with zero resets. -/
theorem stj_index_error_propagation_witness :
    stjPreambleOk stjWorldNoNext = true
    ∧ _get_raw_summary_locators (stjWorldNoNext.pages 1) = .ok [some "A"]
    ∧ (stjWorldNoNext.pages 1).hasNextAnchor = false
    ∧ _attempt_research stjWorldNoNext 2 = .error .indexError
    ∧ research (fun _ => stjWorldNoNext) 2 = (.error (.uncaught .indexError), 0) := by
  refine ⟨rfl, rfl, rfl, ?_, ?_⟩
  · exact stj_index_error_propagation.2.1 stjWorldNoNext 2 [some "A"]
      (by omega) rfl rfl rfl
  · exact stj_index_error_propagation.2.2 (fun _ => stjWorldNoNext) 2
      (stj_index_error_propagation.2.1 stjWorldNoNext 2 [some "A"]
        (by omega) rfl rfl rfl)

/-
Cloudflare Turnstile challenge handling, from cloudflare.py.

`_has_turnstile_response` reads the hidden `cf-turnstile-response` value
within a 1-second bounded wait; its outcome is embedded as an
Option String, none standing for any raised exception (field absent,
timeout, driver failure), all caught by the bare `except Exception`.
-/

/-- Embedding of `_has_turnstile_response`: truthiness of the read value;
every raised exception is caught and yields false. -/
def _has_turnstile_response (readResult : Option String) : Bool :=
  match readResult with
  | none => false
  | some value => value != ""

/-- C10: `_has_turnstile_response` returns true iff the read succeeds with
a non-empty value; a field holding an empty value behaves like an absent
field, and the function is total (never raises) over every read outcome. -/
theorem has_turnstile_response_spec :
    ∀ readResult : Option String,
      (_has_turnstile_response readResult = true
        ↔ ∃ value, readResult = some value ∧ value ≠ "")
      ∧ _has_turnstile_response (some "") = _has_turnstile_response none := by
  intro readResult
  constructor
  · constructor
    · intro h
      match readResult with
      | none => simp [_has_turnstile_response] at h
      | some v =>
        refine ⟨v, rfl, ?_⟩
        simpa only [_has_turnstile_response, bne_iff_ne, ne_eq] using h
    · rintro ⟨v, rfl, hv⟩
      simpa only [_has_turnstile_response, bne_iff_ne, ne_eq] using hv
  · rfl

/-
The Turnstile solver loop.  Every driver operation it performs is given
its outcome by a SolveWorld oracle, indexed by the 1-based loop iteration;
the page operations it issues are collected into a trace so that "performs
no further operations" is a statement about the produced trace.  The
embedding is total: the Python function has no raise statement and returns
a Bool on every path.  Times are rationals (Python floats here carry small
decimal constants only).
-/

/-- One page operation the solver can perform. -/
inductive SolveOp
  | sleep (seconds : ℚ)
  | readTitle
  | readToken
  | findFrame
  | readBox
  | click (x y : ℚ)
deriving DecidableEq, Repr

/-- The bounding box of the Turnstile iframe. -/
structure TurnstileBox where
  x : ℚ
  y : ℚ
  width : ℚ
  height : ℚ
deriving DecidableEq, Repr

def _MAX_SOLVE_ATTEMPTS : Nat := 20

def _CHECKBOX_X_OFFSET : ℚ := 30

/-- Outcomes of the driver operations the solver performs, indexed by the
1-based iteration of the attempt loop. -/
structure SolveWorld where
  /-- event-loop time when the deadline is computed -/
  startTime : ℚ
  /-- event-loop time read by the deadline check of iteration i -/
  checkTime : Nat → ℚ
  /-- is_cloudflare_challenge at the top of iteration i -/
  activeBefore : Nat → Bool
  /-- _has_turnstile_response at the top of iteration i -/
  tokenBefore : Nat → Bool
  /-- the Turnstile frame search of iteration i: none when no frame
  matches, some none when the frame has no bounding box, some (some b)
  when the box is b -/
  frameBox : Nat → Option (Option TurnstileBox)
  /-- is_cloudflare_challenge after the click of iteration i -/
  activeAfter : Nat → Bool
  /-- _has_turnstile_response after the click of iteration i -/
  tokenAfter : Nat → Bool

/-- One iteration of the solver loop: some b means return b, none means
fall through to the next iteration; the list collects the page operations
the iteration performed. -/
def solveStep (w : SolveWorld) (timeout_seconds : ℚ) (i : Nat) :
    Option Bool × List SolveOp :=
  if w.startTime + timeout_seconds ≤ w.checkTime i then
    (some false, [])
  else if !w.activeBefore i then
    (some true, [.readTitle])
  else if w.tokenBefore i then
    (some true, [.readTitle, .readToken, .sleep 2])
  else
    match w.frameBox i with
    | none => (none, [.readTitle, .readToken, .findFrame, .sleep 2])
    | some none => (none, [.readTitle, .readToken, .findFrame, .readBox, .sleep 2])
    | some (some box) =>
      let click_x := box.x + _CHECKBOX_X_OFFSET
      let click_y := box.y + box.height / 2
      let opsBase : List SolveOp :=
        [.readTitle, .readToken, .findFrame, .readBox, .click click_x click_y, .sleep 3]
      if !w.activeAfter i then
        (some true, opsBase ++ [.readTitle])
      else if w.tokenAfter i then
        (some true, opsBase ++ [.readTitle, .readToken, .sleep 2])
      else
        (none, opsBase ++ [.readTitle, .readToken])

/-- The `for attempt in range(1, _MAX_SOLVE_ATTEMPTS + 1)` loop, started
at iteration i with the given remaining iteration count. -/
def solveLoop (w : SolveWorld) (timeout_seconds : ℚ) :
    Nat → Nat → Bool × List SolveOp
  | _, 0 => (false, [])
  | i, Nat.succ fuel =>
    match (solveStep w timeout_seconds i).1 with
    | some b => (b, (solveStep w timeout_seconds i).2)
    | none =>
      let r := solveLoop w timeout_seconds (i + 1) fuel
      (r.1, (solveStep w timeout_seconds i).2 ++ r.2)

/-- Embedding of `solve_cloudflare_challenge`: the initial warm-up sleep,
then the bounded attempt loop; the result pairs the returned Bool with
the trace of page operations performed. -/
def solve_cloudflare_challenge (w : SolveWorld) (timeout_seconds : ℚ) :
    Bool × List SolveOp :=
  let r := solveLoop w timeout_seconds 1 _MAX_SOLVE_ATTEMPTS
  (r.1, SolveOp.sleep 3 :: r.2)

/-- The page operations of the iterations i, i+1, ..., i+n-1. -/
def stepsTrace (w : SolveWorld) (timeout_seconds : ℚ) : Nat → Nat → List SolveOp
  | _, 0 => []
  | i, Nat.succ n =>
    (solveStep w timeout_seconds i).2 ++ stepsTrace w timeout_seconds (i + 1) n

theorem solveLoop_stops (w : SolveWorld) (t : ℚ) :
    ∀ (k i fuel : Nat) (b : Bool), k < fuel →
    (∀ j, j < k → (solveStep w t (i + j)).1 = none) →
    (solveStep w t (i + k)).1 = some b →
    solveLoop w t i fuel
      = (b, stepsTrace w t i k ++ (solveStep w t (i + k)).2) := by
  intro k
  induction k with
  | zero =>
    intro i fuel b hfuel _ hstop
    match fuel, hfuel with
    | Nat.succ f, _ =>
      rw [solveLoop]
      rw [show i + 0 = i from rfl] at hstop
      rw [hstop]
      rw [stepsTrace]
      rfl
  | succ k ih =>
    intro i fuel b hfuel hcont hstop
    match fuel, hfuel with
    | Nat.succ f, hfuel =>
      have h0 : (solveStep w t i).1 = none := by
        have := hcont 0 (Nat.succ_pos k)
        rwa [show i + 0 = i from rfl] at this
      rw [solveLoop, h0]
      have hcont2 : ∀ j, j < k → (solveStep w t ((i + 1) + j)).1 = none := by
        intro j hj
        have := hcont (j + 1) (by omega)
        rwa [show i + (j + 1) = (i + 1) + j from by omega] at this
      have hstop2 : (solveStep w t ((i + 1) + k)).1 = some b := by
        rwa [show i + (k + 1) = (i + 1) + k from by omega] at hstop
      have hf2 : k < f := by omega
      rw [ih (i + 1) f b hf2 hcont2 hstop2]
      rw [stepsTrace]
      rw [show i + (k + 1) = (i + 1) + k from by omega]
      simp [List.append_assoc]

theorem solveLoop_exhausts (w : SolveWorld) (t : ℚ) :
    ∀ (fuel i : Nat),
    (∀ j, j < fuel → (solveStep w t (i + j)).1 = none) →
    solveLoop w t i fuel = (false, stepsTrace w t i fuel) := by
  intro fuel
  induction fuel with
  | zero =>
    intro i _
    rw [solveLoop, stepsTrace]
  | succ f ih =>
    intro i hcont
    have h0 : (solveStep w t i).1 = none := by
      have := hcont 0 (Nat.succ_pos f)
      rwa [show i + 0 = i from rfl] at this
    rw [solveLoop, h0]
    have hcont2 : ∀ j, j < f → (solveStep w t ((i + 1) + j)).1 = none := by
      intro j hj
      have := hcont (j + 1) (by omega)
      rwa [show i + (j + 1) = (i + 1) + j from by omega] at this
    rw [ih (i + 1) hcont2, stepsTrace]

theorem solveStep_deadline (w : SolveWorld) (t : ℚ) (i : Nat)
    (h : w.startTime + t ≤ w.checkTime i) :
    solveStep w t i = (some false, []) := by
  rw [solveStep, if_pos h]

/-- C4: the solver returns false as soon as either limit is exhausted,
whichever comes first, and performs no page operation afterwards.  First
conjunct: if the first k iterations fall through and the deadline check of
iteration k+1 observes a time at or past the deadline, the call returns
false and its trace holds exactly the warm-up sleep and the operations of
the first k iterations: iteration k+1 contributes nothing, because its
deadline check precedes every page operation.  Second conjunct: if all 20
iterations fall through, the call returns false after exactly the 20
iterations of operations.  The embedding is a total function into
Bool × trace, mirroring that the Python function has no raise of its own
and never throws to the caller. -/
theorem solve_challenge_exhaustion (w : SolveWorld) (t : ℚ) :
    (∀ k, k < _MAX_SOLVE_ATTEMPTS →
      (∀ j, j < k → (solveStep w t (1 + j)).1 = none) →
      w.startTime + t ≤ w.checkTime (1 + k) →
      solve_cloudflare_challenge w t
        = (false, SolveOp.sleep 3 :: stepsTrace w t 1 k))
    ∧ ((∀ j, j < _MAX_SOLVE_ATTEMPTS → (solveStep w t (1 + j)).1 = none) →
      solve_cloudflare_challenge w t
        = (false, SolveOp.sleep 3 :: stepsTrace w t 1 _MAX_SOLVE_ATTEMPTS)) := by
  constructor
  · intro k hk hcont hdl
    have hstop : (solveStep w t (1 + k)).1 = some false := by
      rw [solveStep_deadline w t (1 + k) hdl]
    have h := solveLoop_stops w t k 1 _MAX_SOLVE_ATTEMPTS false hk hcont hstop
    rw [solve_cloudflare_challenge]
    rw [h]
    rw [solveStep_deadline w t (1 + k) hdl]
    simp
  · intro hcont
    have h := solveLoop_exhausts w t _MAX_SOLVE_ATTEMPTS 1 hcont
    rw [solve_cloudflare_challenge, h]

/-- A world whose clock is already past the deadline at the first check. -/
def solveWorldLate : SolveWorld :=
  ⟨0, fun _ => 100, fun _ => true, fun _ => false, fun _ => none,
    fun _ => true, fun _ => false⟩

/-- Witness for C4: with a 50-second budget and a first clock read of 100,
the solver returns false having performed only the warm-up sleep. -/
theorem solve_challenge_exhaustion_witness :
    solveWorldLate.startTime + 50 ≤ solveWorldLate.checkTime (1 + 0)
    ∧ solve_cloudflare_challenge solveWorldLate 50 = (false, [SolveOp.sleep 3]) := by
  have hdl : solveWorldLate.startTime + 50 ≤ solveWorldLate.checkTime (1 + 0) := by
    show (0 : ℚ) + 50 ≤ 100
    norm_num
  refine ⟨hdl, ?_⟩
  have h := (solve_challenge_exhaustion solveWorldLate 50).1 0 (by decide)
    (fun j hj => absurd hj (Nat.not_lt_zero j)) hdl
  rw [h]
  rfl
